import Mathlib

/-!
Shallow embedding of `src/server.js` (WhatsApp Customer Notification API).

The server keeps three module-level mutable variables (`sock`, `qrString`,
`isConnected`) plus the implicit pool of `setTimeout(() => startWhatsApp(), …)`
timers it creates. We model that mutable state as `ServerState`, the
`connection.update` event handler (lines 50–80) as a pure transition function,
the `catch` block of `startWhatsApp` (lines 86–89) as `startWhatsAppCatch`,
and the two POST endpoints `/send-message` (lines 155–216) and `/test`
(lines 230–261) as pure functions from state and request fields to the
branch the handler takes (validation error / 503 not-connected / provider
`sendMessage` invocation with the exact JID and text dispatched).

Environment configuration that the modelled code reads (`AUTO_RECONNECT`,
`RECONNECT_DELAY`) is a `Config` record. Express routing, JSON parsing,
QR-image rendering (`qrcode.toDataURL`, abstracted as storing the raw
payload) and the Baileys network library itself are outside the model, as
the spec's §1 puts them outside the core.
-/

namespace WhatsappApi

/-- Baileys `DisconnectReason.loggedOut` HTTP-like status code (401),
compared against `lastDisconnect?.error?.output?.statusCode` at
server.js line 72. -/
def loggedOutCode : Nat := 401

/-- Configuration read from the environment at server.js lines 21–22:
`AUTO_RECONNECT = process.env.AUTO_RECONNECT !== 'false'` (default true) and
`RECONNECT_DELAY = parseInt(process.env.RECONNECT_DELAY) || 5000`. -/
structure Config where
  autoReconnect : Bool
  reconnectDelay : Nat
deriving Repr, DecidableEq

/-- The server's mutable state: `sock` (modelled only as whether it is
non-null), `qrString`, `isConnected` (server.js lines 33–35), and the
list of delays of the outstanding `setTimeout(() => startWhatsApp(), …)`
reconnect timers the code has created but whose callbacks have not run. -/
structure ServerState where
  sockAlive : Bool
  qrString : String
  isConnected : Bool
  pendingReconnects : List Nat
deriving Repr, DecidableEq

/-- State at process start: `sock = null`, `qrString = ''`,
`isConnected = false`, no timers. -/
def initState : ServerState :=
  { sockAlive := false, qrString := "", isConnected := false,
    pendingReconnects := [] }

/-- The `connection` field of a Baileys `connection.update` event.
`opened`/`closed` stand for the string values `'open'`/`'close'`;
`connecting` for `'connecting'` (ignored by the handler). -/
inductive ConnStatus
  | opened
  | closed
  | connecting
deriving Repr, DecidableEq

/-- A `connection.update` payload: the fields the handler at server.js
lines 50–51 destructures. `lastDisconnectCode` is
`lastDisconnect?.error?.output?.statusCode` (absent when any link of that
optional chain is missing). -/
structure ConnUpdate where
  connection : Option ConnStatus
  qr : Option String
  lastDisconnectCode : Option Nat
deriving Repr, DecidableEq

/-- The `connection.update` handler, server.js lines 50–80, as a state
transition. Branch order follows the source: the `qr` block runs first
(stores the rendered code; rendering is abstracted as the payload itself),
then the `'open'` block (`isConnected = true; qrString = ''`), then the
`'close'` block (`isConnected = false`; if
`statusCode !== DisconnectReason.loggedOut && AUTO_RECONNECT` it calls
`setTimeout(() => startWhatsApp(), RECONNECT_DELAY)`, modelled by appending
`reconnectDelay` to the outstanding-timer list; otherwise it only logs). -/
def handleConnectionUpdate (cfg : Config) (st : ServerState)
    (u : ConnUpdate) : ServerState :=
  let st1 := match u.qr with
    | some q => { st with qrString := q }
    | none => st
  let st2 := if u.connection = some ConnStatus.opened then
      { st1 with isConnected := true, qrString := "" }
    else st1
  if u.connection = some ConnStatus.closed then
    let st3 := { st2 with isConnected := false }
    if u.lastDisconnectCode ≠ some loggedOutCode ∧ cfg.autoReconnect = true then
      { st3 with pendingReconnects := st3.pendingReconnects ++ [cfg.reconnectDelay] }
    else st3
  else st2

/-- The `catch` block of `startWhatsApp`, server.js lines 86–89: on any
error thrown while starting (e.g. credential-store I/O failure) it logs
and unconditionally calls `setTimeout(() => startWhatsApp(),
RECONNECT_DELAY)` — note it does not consult `AUTO_RECONNECT` and does not
touch `isConnected`. The function is total: the error never escapes. -/
def startWhatsAppCatch (cfg : Config) (st : ServerState) : ServerState :=
  { st with pendingReconnects := st.pendingReconnects ++ [cfg.reconnectDelay] }

/-- Fold a sequence of provider `connection.update` events through the
handler. -/
def runUpdates (cfg : Config) (st : ServerState)
    (us : List ConnUpdate) : ServerState :=
  us.foldl (handleConnectionUpdate cfg) st

/-- JavaScript falsiness of an optional string field of `req.body`:
`undefined` and the empty string are falsy (the only falsy strings). -/
def jsFalsy : Option String → Bool
  | none => true
  | some s => s = ""

/-- JavaScript `o || d` on an optional string field: the default replaces
a missing or empty-string value. -/
def jsOr (o : Option String) (d : String) : String :=
  match o with
  | none => d
  | some s => if s = "" then d else s

/-- `phone.replace(/[^0-9]/g, '')` (server.js lines 177 and 243): every
character outside `0`–`9` is deleted, the digits kept in order. -/
def cleanPhone (s : String) : String :=
  ⟨s.data.filter Char.isDigit⟩

/-- The branch a send endpoint handler takes: a 400 validation response
(with the code's error string), the 503 not-connected response, or the
`sock.sendMessage(jid, { text })` provider call with the exact arguments. -/
inductive SendOutcome
  | validationError (msg : String)
  | notConnected
  | dispatched (jid : String) (text : String)
deriving Repr, DecidableEq

/-- The `/send-message` handler, server.js lines 155–216, up to the
provider call. Order follows the source: presence check on
`{ phone, message }` (line 160), then `!sock || !isConnected` (line 168),
then the normalized-length check (line 179), then
`sock.sendMessage(cleanPhone + '@s.whatsapp.net', { text: message })`. -/
def sendMessageHandler (st : ServerState)
    (phone message : Option String) : SendOutcome :=
  if jsFalsy phone || jsFalsy message then
    SendOutcome.validationError "Phone number and message are required"
  else if !st.sockAlive || !st.isConnected then
    SendOutcome.notConnected
  else
    let cp := cleanPhone (jsOr phone "")
    if cp.length < 10 then
      SendOutcome.validationError "Invalid phone number format"
    else
      SendOutcome.dispatched (cp ++ "@s.whatsapp.net") (jsOr message "")

/-- The default message body of the `/test` endpoint (server.js line 232). -/
def testDefaultMessage : String :=
  "🎉 Test message from WhatsApp API - Customer Registration System is working!"

/-- The `/test` handler, server.js lines 230–261, up to the provider call.
Defaults are substituted for missing/empty fields first (lines 231–232),
then only `isConnected` is checked (line 234); there is no presence or
length validation before `sock.sendMessage`. -/
def testHandler (st : ServerState)
    (phone message : Option String) : SendOutcome :=
  let testPhone := jsOr phone "919999999999"
  let testMessage := jsOr message testDefaultMessage
  if !st.isConnected then
    SendOutcome.notConnected
  else
    SendOutcome.dispatched (cleanPhone testPhone ++ "@s.whatsapp.net") testMessage

/-- Reachable server states under the session protocol's guarantee that a
pairing (`qr`) payload is only emitted while the connection is not open
(the spec's §4.1 table: pairing-code events occur in the `Pairing` phase). -/
inductive ReachableGuarded (cfg : Config) : ServerState → Prop where
  | init : ReachableGuarded cfg initState
  | step {st : ServerState} {u : ConnUpdate} :
      ReachableGuarded cfg st →
      (u.qr.isSome = true → st.isConnected = false) →
      ReachableGuarded cfg (handleConnectionUpdate cfg st u)

/-- The handler only ever changes `pendingReconnects` by appending one
timer, exactly when the update is a close with a non-`loggedOut` code and
auto-reconnect is enabled. -/
theorem pendingReconnects_handleConnectionUpdate
    (cfg : Config) (st : ServerState) (u : ConnUpdate) :
    (handleConnectionUpdate cfg st u).pendingReconnects =
      if u.connection = some ConnStatus.closed ∧
          u.lastDisconnectCode ≠ some loggedOutCode ∧
          cfg.autoReconnect = true then
        st.pendingReconnects ++ [cfg.reconnectDelay]
      else st.pendingReconnects := by
  rcases u with ⟨conn, qr, code⟩
  unfold handleConnectionUpdate
  rcases conn with _ | c
  · cases qr <;> simp
  · cases c <;> cases qr <;> simp <;> split <;> simp_all

/-- The handler's effect on `isConnected`: `'close'` forces false,
`'open'` forces true, anything else leaves it unchanged. -/
theorem isConnected_handleConnectionUpdate
    (cfg : Config) (st : ServerState) (u : ConnUpdate) :
    (handleConnectionUpdate cfg st u).isConnected =
      match u.connection with
      | some ConnStatus.closed => false
      | some ConnStatus.opened => true
      | _ => st.isConnected := by
  rcases u with ⟨conn, qr, code⟩
  unfold handleConnectionUpdate
  rcases conn with _ | c
  · cases qr <;> simp
  · cases c <;> cases qr <;> simp <;> split <;> simp_all

/-- The handler's effect on `qrString`: an `'open'` update clears it
(even if the same update carries a new `qr`, since the `qr` block runs
first); otherwise a `qr` payload replaces it and it is untouched when no
`qr` is present (in particular `'close'` does not clear it). -/
theorem qrString_handleConnectionUpdate
    (cfg : Config) (st : ServerState) (u : ConnUpdate) :
    (handleConnectionUpdate cfg st u).qrString =
      if u.connection = some ConnStatus.opened then ""
      else
        match u.qr with
        | some q => q
        | none => st.qrString := by
  rcases u with ⟨conn, qr, code⟩
  unfold handleConnectionUpdate
  rcases conn with _ | c
  · cases qr <;> simp
  · cases c <;> cases qr <;> simp <;> split <;> simp_all

/-- C5: `send()` strips every non-digit character from the recipient —
only characters `0`–`9` survive normalization — and on the concrete
recipient `"+91 99999-99999"` the handler, when connected, dispatches to
the digits-only JID `"919999999999@s.whatsapp.net"`. -/
theorem c5_send_normalizes_recipient :
    cleanPhone "+91 99999-99999" = "919999999999" ∧
    (∀ s : String, ∀ c ∈ (cleanPhone s).data, ('0' ≤ c ∧ c ≤ '9')) ∧
    (∀ st : ServerState, st.sockAlive = true → st.isConnected = true →
      sendMessageHandler st (some "+91 99999-99999") (some "Hello") =
        SendOutcome.dispatched "919999999999@s.whatsapp.net" "Hello") := by
  refine ⟨by decide, ?_, ?_⟩
  · intro s c hc
    have h := List.of_mem_filter hc
    simpa [Char.isDigit, ge_iff_le] using h
  · intro st hs hc
    simp only [sendMessageHandler, hs, hc]
    decide

/-- C5 witness: the normalization theorem applied at the concrete
connected state and recipient. -/
theorem c5_witness :
    sendMessageHandler ⟨true, "", true, []⟩
        (some "+91 99999-99999") (some "Hello") =
      SendOutcome.dispatched "919999999999@s.whatsapp.net" "Hello" :=
  c5_send_normalizes_recipient.2.2 ⟨true, "", true, []⟩ rfl rfl

/-- C1 counterexample: a `/send-message` call made while disconnected
whose recipient is the empty string fails with the 400 validation
response ("Phone number and message are required"), not with the 503
not-connected response — the presence check at server.js line 160 runs
before the connection check at line 168, refuting "always fails with
NotConnectedError". -/
theorem c1_counterexample :
    initState.isConnected = false ∧
    sendMessageHandler initState (some "") (some "hi") =
      SendOutcome.validationError "Phone number and message are required" := by
  decide

/-- C1 (amended): while disconnected, neither endpoint ever reaches the
provider's `sendMessage`; `/send-message` answers with the not-connected
error whenever both fields pass the presence check (otherwise the
validation error wins), and `/test` always answers with the
not-connected error. -/
theorem c1_not_connected_never_dispatches :
    ∀ (st : ServerState) (phone message : Option String),
      st.isConnected = false →
        (∀ jid text,
          sendMessageHandler st phone message ≠
            SendOutcome.dispatched jid text) ∧
        (jsFalsy phone = false → jsFalsy message = false →
          sendMessageHandler st phone message = SendOutcome.notConnected) ∧
        testHandler st phone message = SendOutcome.notConnected := by
  intro st phone message hc
  refine ⟨?_, ?_, ?_⟩
  · intro jid text
    unfold sendMessageHandler
    simp only [hc]
    split
    · simp
    · simp
  · intro hp hm
    unfold sendMessageHandler
    simp [hp, hm, hc]
  · unfold testHandler
    simp [hc]

/-- C1 witness: the amended theorem at the initial (disconnected) state
with presence-valid fields. -/
theorem c1_witness :
    sendMessageHandler initState (some "919999999999") (some "hi") =
        SendOutcome.notConnected ∧
      testHandler initState (some "919999999999") (some "hi") =
        SendOutcome.notConnected :=
  ⟨(c1_not_connected_never_dispatches initState
      (some "919999999999") (some "hi") rfl).2.1 rfl rfl,
   (c1_not_connected_never_dispatches initState
      (some "919999999999") (some "hi") rfl).2.2⟩

/-- C6 counterexample: a `/send-message` call whose recipient normalizes
to only 3 digits (constraints unmet), made while disconnected, fails
with the 503 not-connected response instead of ValidationError — the
connection check at server.js line 168 runs before the length check at
line 179. -/
theorem c6_counterexample :
    (cleanPhone "123").length < 10 ∧
    initState.isConnected = false ∧
    sendMessageHandler initState (some "123") (some "hi") =
      SendOutcome.notConnected := by
  decide

/-- C6 (amended): when the input constraints are unmet (empty/missing
body, or recipient normalizing to fewer than 10 digits), the provider is
never invoked; the failure is one of the two validation responses
whenever the server is connected, but an unmet length constraint
combined with a disconnected server yields the not-connected response
instead. -/
theorem c6_validation_blocks_dispatch :
    ∀ (st : ServerState) (phone message : Option String),
      (jsFalsy message = true ∨ (cleanPhone (jsOr phone "")).length < 10) →
        (∀ jid text,
          sendMessageHandler st phone message ≠
            SendOutcome.dispatched jid text) ∧
        (st.sockAlive = true → st.isConnected = true →
          sendMessageHandler st phone message =
              SendOutcome.validationError
                "Phone number and message are required" ∨
            sendMessageHandler st phone message =
              SendOutcome.validationError "Invalid phone number format") := by
  intro st phone message hunmet
  constructor
  · intro jid text
    unfold sendMessageHandler
    split
    · simp
    · next hfalsy =>
      split
      · simp
      · have hp : (cleanPhone (jsOr phone "")).length < 10 := by
          rcases hunmet with hm | hp
          · exact absurd (by simp [hm]) hfalsy
          · exact hp
        simp [hp]
  · intro hs hc
    unfold sendMessageHandler
    split
    · exact Or.inl rfl
    · next hfalsy =>
      have hp : (cleanPhone (jsOr phone "")).length < 10 := by
        rcases hunmet with hm | hp
        · exact absurd (by simp [hm]) hfalsy
        · exact hp
      rw [hs, hc]
      simp [hp]

/-- C6 witness: the amended theorem at a connected state with a
3-digit recipient. -/
theorem c6_witness :
    (sendMessageHandler ⟨true, "", true, []⟩ (some "123") (some "hi") ≠
        SendOutcome.dispatched "123@s.whatsapp.net" "hi") ∧
      (sendMessageHandler ⟨true, "", true, []⟩ (some "123") (some "hi") =
          SendOutcome.validationError
            "Phone number and message are required" ∨
        sendMessageHandler ⟨true, "", true, []⟩ (some "123") (some "hi") =
          SendOutcome.validationError "Invalid phone number format") :=
  ⟨(c6_validation_blocks_dispatch ⟨true, "", true, []⟩
      (some "123") (some "hi") (Or.inr (by decide))).1
      "123@s.whatsapp.net" "hi",
   (c6_validation_blocks_dispatch ⟨true, "", true, []⟩
      (some "123") (some "hi") (Or.inr (by decide))).2 rfl rfl⟩

/-- C10: the `/test` endpoint performs no input validation: whenever the
server is connected it always reaches the provider call, dispatching to
the normalization of the given recipient (however short) with the given
body, and substituting the built-in defaults (phone `'919999999999'`,
the fixed test message) for a missing or empty field. -/
theorem c10_test_endpoint_no_validation :
    ∀ (st : ServerState) (phone message : Option String),
      st.isConnected = true →
        testHandler st phone message =
          SendOutcome.dispatched
            (cleanPhone (jsOr phone "919999999999") ++ "@s.whatsapp.net")
            (jsOr message testDefaultMessage) := by
  intro st phone message hc
  unfold testHandler
  simp [hc]

/-- C10 witness: a 2-digit recipient with an empty body is still
dispatched (with the default body), and a request with no fields at all
is dispatched to the default phone with the default body. -/
theorem c10_witness :
    testHandler ⟨true, "", true, []⟩ (some "12") (some "") =
        SendOutcome.dispatched "12@s.whatsapp.net" testDefaultMessage ∧
      testHandler ⟨true, "", true, []⟩ none none =
        SendOutcome.dispatched "919999999999@s.whatsapp.net"
          testDefaultMessage :=
  ⟨c10_test_endpoint_no_validation ⟨true, "", true, []⟩
      (some "12") (some "") rfl,
   c10_test_endpoint_no_validation ⟨true, "", true, []⟩ none none rfl⟩

/-- C2 counterexample: starting from the initial state, two disconnect
events (no status code, so not `loggedOut`) each schedule their own
reconnect timer — after the second event two timers are outstanding, so
the invariant "at most one connection attempt in flight at every
reachable state" is false: there is no "attempt in flight" flag in the
code. -/
theorem c2_counterexample :
    ¬ (runUpdates ⟨true, 5000⟩ initState
        [⟨some ConnStatus.closed, none, none⟩,
         ⟨some ConnStatus.closed, none, none⟩]).pendingReconnects.length ≤ 1 := by
  decide

/-- C2 (amended): each `connection.update` event schedules at most one
new reconnect timer, and schedules exactly one precisely when it is a
close with a non-`loggedOut` code while auto-reconnect is enabled — so a
disconnect arriving while a reconnect is already scheduled adds a second
outstanding attempt rather than being suppressed by a flag. -/
theorem c2_disconnects_accumulate_attempts :
    ∀ (cfg : Config) (st : ServerState) (u : ConnUpdate),
      (handleConnectionUpdate cfg st u).pendingReconnects.length ≤
          st.pendingReconnects.length + 1 ∧
        ((handleConnectionUpdate cfg st u).pendingReconnects.length =
            st.pendingReconnects.length + 1 ↔
          u.connection = some ConnStatus.closed ∧
            u.lastDisconnectCode ≠ some loggedOutCode ∧
            cfg.autoReconnect = true) := by
  intro cfg st u
  rw [pendingReconnects_handleConnectionUpdate]
  split
  · next h => simpa using h
  · next h => simp [h]

/-- C2 witness: the amended theorem at a state that already has one
reconnect pending, hit by a plain network close: the count goes to 2. -/
theorem c2_witness :
    (handleConnectionUpdate ⟨true, 5000⟩ ⟨true, "", false, [5000]⟩
        ⟨some ConnStatus.closed, none, none⟩).pendingReconnects.length =
      ([5000] : List Nat).length + 1 :=
  (c2_disconnects_accumulate_attempts ⟨true, 5000⟩ ⟨true, "", false, [5000]⟩
      ⟨some ConnStatus.closed, none, none⟩).2.mpr ⟨rfl, by decide, rfl⟩

/-- C3: a close event carrying the `loggedOut` status code never
schedules a reconnect (the outstanding-timer list is unchanged, for
every configuration, auto-reconnect enabled or not) and leaves the
server disconnected; and from a disconnected state with no pending
timer, any sequence of further `loggedOut` closes keeps the state
terminal: still no timer, still disconnected. -/
theorem c3_logged_out_is_terminal :
    ∀ (cfg : Config) (st : ServerState),
      ((handleConnectionUpdate cfg st
          ⟨some ConnStatus.closed, none, some loggedOutCode⟩).pendingReconnects =
            st.pendingReconnects ∧
        (handleConnectionUpdate cfg st
          ⟨some ConnStatus.closed, none, some loggedOutCode⟩).isConnected =
            false) ∧
      (∀ us : List ConnUpdate,
        (∀ u ∈ us, u = ⟨some ConnStatus.closed, none, some loggedOutCode⟩) →
        st.pendingReconnects = [] → st.isConnected = false →
          (runUpdates cfg st us).pendingReconnects = [] ∧
            (runUpdates cfg st us).isConnected = false) := by
  intro cfg st
  constructor
  · constructor
    · rw [pendingReconnects_handleConnectionUpdate]
      simp
    · rw [isConnected_handleConnectionUpdate]
  · intro us
    induction us generalizing st with
    | nil => intro _ hp hc; exact ⟨hp, hc⟩
    | cons u rest ih =>
      intro hall hp hc
      have hu : u = ⟨some ConnStatus.closed, none, some loggedOutCode⟩ :=
        hall u (List.mem_cons_self u rest)
      have hrest : ∀ v ∈ rest,
          v = ⟨some ConnStatus.closed, none, some loggedOutCode⟩ :=
        fun v hv => hall v (List.mem_cons_of_mem u hv)
      have hp' : (handleConnectionUpdate cfg st u).pendingReconnects = [] := by
        rw [hu, pendingReconnects_handleConnectionUpdate]
        simpa using hp
      have hc' : (handleConnectionUpdate cfg st u).isConnected = false := by
        rw [hu, isConnected_handleConnectionUpdate]
      exact ih (handleConnectionUpdate cfg st u) hrest hp' hc'

/-- C3 witness: the terminal-state theorem at the initial state and a
one-event `loggedOut` trace. -/
theorem c3_witness :
    (runUpdates ⟨true, 5000⟩ initState
        [⟨some ConnStatus.closed, none, some loggedOutCode⟩]).pendingReconnects =
        [] ∧
      (runUpdates ⟨true, 5000⟩ initState
        [⟨some ConnStatus.closed, none, some loggedOutCode⟩]).isConnected =
        false :=
  (c3_logged_out_is_terminal ⟨true, 5000⟩ initState).2
    [⟨some ConnStatus.closed, none, some loggedOutCode⟩]
    (fun _ hu => List.mem_singleton.mp hu) rfl rfl

/-- C4 counterexample: with `AUTO_RECONNECT='false'`, a close event with
an absent status code (unclassified, hence not `loggedOut`) schedules no
reconnect — the timer list stays empty — refuting the claim that the
manager re-attempts for every non-`LoggedOut` disconnect. -/
theorem c4_counterexample :
    (handleConnectionUpdate ⟨false, 5000⟩ initState
        ⟨some ConnStatus.closed, none, none⟩).pendingReconnects = [] := by
  decide

/-- C4 (amended): provided auto-reconnect is enabled (the default), every
close event whose status code differs from `loggedOut` — including an
absent/unclassified code — appends exactly one reconnect timer with the
configured delay: the manager never stops silently in that
configuration. -/
theorem c4_non_logged_out_always_reconnects :
    ∀ (delay : Nat) (st : ServerState) (code : Option Nat) (qr : Option String),
      code ≠ some loggedOutCode →
        (handleConnectionUpdate ⟨true, delay⟩ st
            ⟨some ConnStatus.closed, qr, code⟩).pendingReconnects =
          st.pendingReconnects ++ [delay] := by
  intro delay st code qr hcode
  rw [pendingReconnects_handleConnectionUpdate]
  simp [hcode]

/-- C4 witness: the amended theorem at the initial state with an absent
status code. -/
theorem c4_witness :
    (handleConnectionUpdate ⟨true, 5000⟩ initState
        ⟨some ConnStatus.closed, none, none⟩).pendingReconnects =
      [] ++ [5000] :=
  c4_non_logged_out_always_reconnects 5000 initState none none (by decide)

/-- C9 counterexample: with `AUTO_RECONNECT='false'` the two paths are
not identical: the `catch` block of `startWhatsApp` still schedules a
reconnect (it never consults `AUTO_RECONNECT`), while a close event with
status code 428 (a provider-reported cause, classified `ProviderError`)
schedules none. -/
theorem c9_counterexample :
    startWhatsAppCatch ⟨false, 5000⟩ initState ≠
      handleConnectionUpdate ⟨false, 5000⟩ initState
        ⟨some ConnStatus.closed, none, some 428⟩ := by
  decide

/-- C9 (amended): a connect() error never crashes — the `catch` block
always yields a state, unconditionally appending one reconnect timer
with the configured delay — and when auto-reconnect is enabled and the
manager was already disconnected, the resulting state is identical to
the one produced by a disconnect event with any non-`loggedOut`
(`ProviderError`-classified) status code. -/
theorem c9_connect_error_feeds_backoff_path :
    ∀ (delay : Nat) (st : ServerState) (code : Option Nat),
      (st.isConnected = false → code ≠ some loggedOutCode →
        startWhatsAppCatch ⟨true, delay⟩ st =
          handleConnectionUpdate ⟨true, delay⟩ st
            ⟨some ConnStatus.closed, none, code⟩) ∧
      (startWhatsAppCatch ⟨true, delay⟩ st).pendingReconnects =
        st.pendingReconnects ++ [delay] := by
  intro delay st code
  constructor
  · intro hic hcode
    rcases st with ⟨sa, qs, ic, pr⟩
    simp only at hic
    subst hic
    unfold startWhatsAppCatch handleConnectionUpdate
    simp [hcode]
  · rfl

/-- C9 witness: the amended theorem at the initial state with the
provider-reported status code 428. -/
theorem c9_witness :
    startWhatsAppCatch ⟨true, 5000⟩ initState =
        handleConnectionUpdate ⟨true, 5000⟩ initState
          ⟨some ConnStatus.closed, none, some 428⟩ ∧
      (startWhatsAppCatch ⟨true, 5000⟩ initState).pendingReconnects =
        [] ++ [5000] :=
  ⟨(c9_connect_error_feeds_backoff_path 5000 initState (some 428)).1 rfl
      (by decide),
   (c9_connect_error_feeds_backoff_path 5000 initState (some 428)).2⟩

/-- In every state reachable under the protocol guarantee that `qr`
payloads arrive only while disconnected, a non-empty `qrString` implies
the server is not connected. -/
theorem qrString_guarded_invariant {cfg : Config} {st : ServerState}
    (h : ReachableGuarded cfg st) :
    st.qrString ≠ "" → st.isConnected = false := by
  induction h with
  | init => intro hq; exact absurd rfl hq
  | @step st u hr hguard ih =>
    intro hq
    rw [qrString_handleConnectionUpdate] at hq
    rw [isConnected_handleConnectionUpdate]
    rcases hconn : u.connection with _ | c
    · rw [hconn] at hq
      simp only [reduceCtorEq, if_false] at hq
      rcases hqr : u.qr with _ | q
      · rw [hqr] at hq
        exact ih hq
      · exact hguard (by rw [hqr]; rfl)
    · cases c with
      | opened => rw [hconn] at hq; simp at hq
      | closed => rfl
      | connecting =>
        rw [hconn] at hq
        simp only [Option.some.injEq, reduceCtorEq, if_false] at hq
        rcases hqr : u.qr with _ | q
        · rw [hqr] at hq
          exact ih hq
        · exact hguard (by rw [hqr]; rfl)

/-- C8 counterexample: the code does not guard the `qr` branch on the
connection state — an `'open'` update followed by a `qr` update leaves
the server simultaneously connected and holding a non-empty pairing
code, refuting the unconditional invariant "pairing code non-null only
while pairing". -/
theorem c8_counterexample :
    (runUpdates ⟨true, 5000⟩ initState
        [⟨some ConnStatus.opened, none, none⟩,
         ⟨none, some "PAIR", none⟩]).isConnected = true ∧
      (runUpdates ⟨true, 5000⟩ initState
        [⟨some ConnStatus.opened, none, none⟩,
         ⟨none, some "PAIR", none⟩]).qrString = "PAIR" := by
  decide

/-- C8 (amended): under the session protocol's guarantee that `qr`
events are only emitted while disconnected, every reachable state has a
non-empty pairing code only while not connected; unconditionally, an
`'open'` update clears the code the instant the state becomes connected
(even if the same update carries a fresh `qr`), and any `qr` payload in
a non-`'open'` update supersedes the previous code. -/
theorem c8_pairing_code_lifecycle :
    ∀ (cfg : Config) (st : ServerState),
      (ReachableGuarded cfg st → st.qrString ≠ "" → st.isConnected = false) ∧
      (∀ u : ConnUpdate, u.connection = some ConnStatus.opened →
        (handleConnectionUpdate cfg st u).qrString = "") ∧
      (∀ (u : ConnUpdate) (q : String), u.qr = some q →
        u.connection ≠ some ConnStatus.opened →
        (handleConnectionUpdate cfg st u).qrString = q) := by
  intro cfg st
  refine ⟨fun h => qrString_guarded_invariant h, ?_, ?_⟩
  · intro u hopen
    rw [qrString_handleConnectionUpdate, hopen]
    rfl
  · intro u q hq hnopen
    rw [qrString_handleConnectionUpdate, hq]
    simp [hnopen]

/-- C8 witness: the lifecycle theorem applied at a guarded-reachable
pairing state (invariant conjunct), at an `'open'` update carrying a
stale `qr` (clearing conjunct), and at a plain `qr` update (supersede
conjunct). -/
theorem c8_witness :
    (handleConnectionUpdate ⟨true, 5000⟩ initState
        ⟨none, some "PAIR", none⟩).isConnected = false ∧
      (handleConnectionUpdate ⟨true, 5000⟩ initState
        ⟨some ConnStatus.opened, some "PAIR", none⟩).qrString = "" ∧
      (handleConnectionUpdate ⟨true, 5000⟩ ⟨true, "OLD", false, []⟩
        ⟨none, some "PAIR", none⟩).qrString = "PAIR" :=
  ⟨(c8_pairing_code_lifecycle ⟨true, 5000⟩
      (handleConnectionUpdate ⟨true, 5000⟩ initState
        ⟨none, some "PAIR", none⟩)).1
      (ReachableGuarded.step ReachableGuarded.init (fun _ => rfl))
      (by decide),
   (c8_pairing_code_lifecycle ⟨true, 5000⟩ initState).2.1
      ⟨some ConnStatus.opened, some "PAIR", none⟩ rfl,
   (c8_pairing_code_lifecycle ⟨true, 5000⟩ ⟨true, "OLD", false, []⟩).2.2
      ⟨none, some "PAIR", none⟩ "PAIR" rfl (by decide)⟩

end WhatsappApi
